import Mathlib

/-!
Verification of the concurrent pipeline and interruption-coordination
machinery of the stt-tts-tests repository, as a shallow embedding of
src/voice-llm.py, src/realtime.py and src/test-times.py.

Conventions:
* Python bytes values are lists of naturals; Python truthiness of an
  optional bytes value (None and b"" are falsy) is modelled explicitly.
* Each `with state.lock:` block of voice-llm.py is one atomic state
  transformation; the step relation `LockStep` has one constructor per
  critical section (plus the unlocked writes of the stop flag).
* External collaborators (microphone, Whisper, the Ollama stream, the
  translator, the TTS engines) are oracle parameters.
-/

namespace SttTts

/-- Python bytes, as a list of byte values. -/
abbrev Bytes := List Nat

/-- Python truthiness of an optional bytes value: None and b"" are falsy. -/
def truthyBytes : Option Bytes → Bool
  | none => false
  | some a => !a.isEmpty

/-- `SharedState` of voice-llm.py (lines 49-60): the record shared by the
three threads, protected by one lock. Fields mirror `is_playing`,
`interrupted`, `interrupt_audio` and `stop` with their `__init__` values
modelled by `initState`. -/
structure SState where
  is_playing : Bool
  interrupted : Bool
  interrupt_audio : Option Bytes
  stop : Bool
  deriving Repr, DecidableEq

/-- The `SharedState.__init__` values (voice-llm.py lines 52-60). -/
def initState : SState :=
  { is_playing := false, interrupted := false, interrupt_audio := none, stop := false }

/-- The interrupt listener's second critical section (voice-llm.py lines
221-224): after capturing `wav`, re-check under the lock that playback is
still busy; only then set `interrupted` and stash the utterance. If playback
already ended the captured bytes are dropped and the state is untouched. -/
def listenerStash (wav : Bytes) (s : SState) : SState :=
  if s.is_playing then
    { s with interrupted := true, interrupt_audio := some wav }
  else s

/-- The orchestrator's consume critical section (voice-llm.py lines 291-295):
`wav_bytes = None; with lock: if state.interrupt_audio: wav_bytes = it;
state.interrupt_audio = None; state.interrupted = False`. Returns the
consumed bytes (if any) and the new state. -/
def orchConsume (s : SState) : Option Bytes × SState :=
  if truthyBytes s.interrupt_audio then
    (s.interrupt_audio, { s with interrupt_audio := none, interrupted := false })
  else (none, s)

/-- Paso 1 of `conversation_loop` (voice-llm.py lines 287-298): prefer the
pending interrupt utterance; otherwise take the result of the fresh
`listen_once` call (`fresh`, None on timeout). -/
def acquireUtterance (s : SState) (fresh : Option Bytes) : Option Bytes × SState :=
  let p := orchConsume s
  if truthyBytes p.1 then p else (fresh, p.2)

/-- One atomic mutation of the shared state, one constructor per mutation
site of voice-llm.py:
* `playStart` / `playEnd` : `play_tts` lines 163-164 and 181-182;
* `stash`   : the interrupt listener, lines 221-224;
* `consume` : the orchestrator, lines 291-295;
* `setStop` : the (unlocked) writes `state.stop = True`, lines 317 and 378. -/
inductive LockStep : SState → SState → Prop
  | playStart (s : SState) : LockStep s { s with is_playing := true }
  | playEnd (s : SState) : LockStep s { s with is_playing := false }
  | stash (s : SState) (wav : Bytes) : LockStep s (listenerStash wav s)
  | consume (s : SState) : LockStep s (orchConsume s).2
  | setStop (s : SState) : LockStep s { s with stop := true }

/-- The spec's invariant on the shared record: the stashed interrupt
utterance is non-null only if the interrupted flag is set. -/
def AudioImpliesInterrupted (s : SState) : Prop :=
  s.interrupt_audio ≠ none → s.interrupted = true

instance (s : SState) : Decidable (AudioImpliesInterrupted s) := by
  unfold AudioImpliesInterrupted; infer_instance

/-- Python str.strip() with no argument: remove whitespace from both ends.
(Defined over the character list so that it is kernel-computable.) -/
def pyStrip (s : String) : String :=
  ⟨((s.data.dropWhile Char.isWhitespace).reverse.dropWhile Char.isWhitespace).reverse⟩

/-- Python str.lower(), character-wise. -/
def pyLower (s : String) : String := ⟨s.data.map Char.toLower⟩

/-! ### The streaming LLM call (`chat_ollama`, voice-llm.py lines 101-139) -/

/-- One parsed line of the Ollama chat stream: the token content of
`chunk["message"]["content"]` (possibly `""`) and the `done` flag. -/
structure Chunk where
  token : String
  done : Bool
  deriving Repr, DecidableEq

/-- One raw line of `resp.iter_lines()`: `none` is a blank keep-alive line
(`if not line: continue`), `some c` a JSON chunk (assumed well formed, as the
code does not guard `json.loads`). -/
abbrev StreamLine := Option Chunk

/-- The body of the streaming loop of `chat_ollama` (voice-llm.py lines
122-133). `intr i` and `stopf i` are the values of the unlocked reads of
`state.interrupted` and `state.stop` at iteration `i` (they may be flipped
concurrently by the listener thread); the loop re-checks them before every
line, skips blank lines, appends non-empty tokens to the accumulator, and
breaks on the `done` flag. -/
def chatGo : List StreamLine → (Nat → Bool) → (Nat → Bool) → Nat → List String → List String
  | [], _, _, _, acc => acc
  | l :: rest, intr, stopf, i, acc =>
    if intr i || stopf i then acc
    else
      match l with
      | none => chatGo rest intr stopf (i + 1) acc
      | some c =>
        let acc2 := if c.token ≠ "" then acc ++ [c.token] else acc
        if c.done then acc2 else chatGo rest intr stopf (i + 1) acc2

/-- `chat_ollama` (voice-llm.py lines 101-139): on a `requests`
exception — before or during the stream — the function returns `""`
(modelled by `netErr`); otherwise it returns the joined accumulated tokens,
stripped. -/
def chatOllama (netErr : Bool) (lines : List StreamLine) (intr stopf : Nat → Bool) : String :=
  if netErr then "" else pyStrip (String.join (chatGo lines intr stopf 0 []))

/-- The non-empty tokens carried by a list of stream lines, in order. -/
def collectTokens (lines : List StreamLine) : List String :=
  lines.filterMap fun l =>
    match l with
    | some c => if c.token ≠ "" then some c.token else none
    | none => none

/-- A stream line that does not carry the `done` flag. -/
def lineNotDone : StreamLine → Bool
  | none => true
  | some c => !c.done

/-! ### The conversation orchestrator (`conversation_loop`, voice-llm.py lines 247-340) -/

/-- One entry of the `messages` history list: a role/content dictionary. -/
structure Msg where
  role : String
  content : String
  deriving Repr, DecidableEq

/-- The farewell vocabulary of voice-llm.py line 315. -/
def exitPhrases : List String := ["salir", "adiós", "exit", "quit", "bye"]

/-- `text.strip().lower() in ("salir", "adiós", "exit", "quit", "bye")`. -/
def isExitPhrase (t : String) : Bool := exitPhrases.contains (pyLower (pyStrip t))

/-- The oracle inputs of one iteration of `conversation_loop`: the result of
`listen_once` (None on timeout), the Whisper transcription (already
stripped, voice-llm.py line 96), the Ollama stream together with the
per-iteration interrupt/stop reads, whether the request raised, and the
value of the unlocked read of `state.interrupted` at line 334. -/
structure TurnOracles where
  freshListen : Option Bytes
  transcribe : Bytes → String
  llmNetErr : Bool
  llmLines : List StreamLine
  llmIntr : Nat → Bool
  llmStop : Nat → Bool
  interruptedAfterLLM : Bool

/-- The response string this turn's `chat_ollama(messages, state)` call
returns. -/
def llmResponse (o : TurnOracles) : String :=
  chatOllama o.llmNetErr o.llmLines o.llmIntr o.llmStop

/-- The observable outcome of one iteration of the `while not state.stop`
loop: the shared state as mutated by the orchestrator thread, the history,
whether the loop was exited (`break`), whether `chat_ollama` was called, and
whether `play_tts` was called. (`play_tts`'s own transient toggling of
`is_playing` is covered by `LockStep.playStart` / `LockStep.playEnd`.) -/
structure TurnOut where
  state : SState
  messages : List Msg
  exited : Bool
  llmCalled : Bool
  spoke : Bool
  deriving Repr, DecidableEq

/-- Pasos 2-4 of `conversation_loop` (voice-llm.py lines 303-338), given the
transcript of the acquired utterance: empty transcript → `continue` without
touching the history; exit phrase → speak a farewell, set `stop`, `break`;
otherwise append the user turn, call the LLM; empty response → `continue`
(the user turn stays); otherwise append the assistant turn (even when the
stream was cut short) and speak it unless `state.interrupted` reads true. -/
def convTurnAfterText (s : SState) (msgs : List Msg) (o : TurnOracles) (text : String) :
    TurnOut :=
  if text = "" then ⟨s, msgs, false, false, false⟩
  else if isExitPhrase text then ⟨{ s with stop := true }, msgs, true, false, true⟩
  else
    if llmResponse o = "" then ⟨s, msgs ++ [⟨"user", text⟩], false, true, false⟩
    else if o.interruptedAfterLLM then
      ⟨s, msgs ++ [⟨"user", text⟩, ⟨"assistant", llmResponse o⟩], false, true, false⟩
    else
      ⟨s, msgs ++ [⟨"user", text⟩, ⟨"assistant", llmResponse o⟩], false, true, true⟩

/-- Dispatch on the acquired utterance (`if not wav_bytes: continue`,
voice-llm.py lines 300-301). -/
def convTurnWith (s : SState) (msgs : List Msg) (o : TurnOracles) :
    Option Bytes → TurnOut
  | none => ⟨s, msgs, false, false, false⟩
  | some wav =>
    if wav.isEmpty then ⟨s, msgs, false, false, false⟩
    else convTurnAfterText s msgs o (o.transcribe wav)

/-- One full iteration of the conversation loop (voice-llm.py lines
286-338). -/
def convTurn (s0 : SState) (msgs : List Msg) (o : TurnOracles) : TurnOut :=
  convTurnWith (acquireUtterance s0 o.freshListen).2 msgs o
    (acquireUtterance s0 o.freshListen).1

/-! ### The five-stage pipeline of realtime.py -/

/-- The per-item body of `translate_process` (realtime.py lines 282-307).
`needs_translation` is computed once as `input_lang != output_lang`; when it
holds the collaborator `tr` is invoked (`GoogleTranslator(...).translate`),
and on an exception the original text is kept ("propagando original");
either way the resulting text is put on `translated_queue` (line 307).
Returns the emitted text and whether the collaborator was invoked. -/
def translateItem (input_lang output_lang : String) (tr : String → Except Unit String)
    (text : String) : String × Bool :=
  if input_lang ≠ output_lang then
    match tr text with
    | Except.ok t => (t, true)
    | Except.error _ => (text, true)
  else (text, false)

/-- The translation step of `main` flow 1 in test-times.py (lines 179-183):
translate only when `input_language != output_language`, else keep the text.
Returns the final text and whether `deep_translate` was called. -/
def flowOneTranslate (input_language output_language : String) (tr : String → String)
    (text : String) : String × Bool :=
  if input_language ≠ output_language then (tr text, true) else (text, false)

/-- The per-item body of `stt_process` (realtime.py lines 246-266): a
transcription exception is caught and the item dropped (`continue`); an
empty stripped transcript is dropped ("Transcripción vacía — ignorando");
otherwise the text is put on `stt_queue`. The oracle carries the stripped
transcript or the exception. -/
def sttHandle : Except Unit String → Option String
  | Except.error _ => none
  | Except.ok t => if t = "" then none else some t

/-- The provider-setup prologue of `preproces_output_process` (realtime.py
lines 326-345), restricted to the import check: if the configured provider
is "piper" but the piper package could not be imported (`PiperVoice is
None`), log and fall back to "gtts" for the rest of the run, leaving
`piper_voice = None`; if piper is importable the voice model is loaded
(model-path resolution and download elided). Returns the effective provider
and whether a piper voice object is held. -/
def preprocesInit (tts_provider : String) (piperInstalled : Bool) : String × Bool :=
  if tts_provider = "piper" then
    if piperInstalled then ("piper", true) else ("gtts", false)
  else (tts_provider, false)

/-- The per-item provider dispatch of `preproces_output_process` (realtime.py
line 357): `if tts_provider == "piper" and piper_voice:` → piper, else
gTTS. -/
def itemSynthProvider (tts_provider : String) (piperVoiceHeld : Bool) : String :=
  if tts_provider = "piper" && piperVoiceHeld then "piper" else "gtts"

/-- The per-item body of `preproces_output_process` (realtime.py lines
347-390): a synthesis exception drops the item (`continue`); a speed-up
exception falls back to the raw synthesized audio ("usando original");
otherwise the sped-up bytes are emitted to `output_queue`. -/
def preprocesItem (synth : Except Unit Bytes) (speedup : Bytes → Except Unit Bytes) :
    Option Bytes :=
  match synth with
  | Except.error _ => none
  | Except.ok raw =>
    match speedup raw with
    | Except.ok w => some w
    | Except.error _ => some raw

/-- The liveness of the five worker processes plus the shared
`stop_event` (realtime.py lines 476-527). -/
structure PipeState where
  stopFlag : Bool
  captureAlive : Bool
  sttAlive : Bool
  translateAlive : Bool
  preprocesAlive : Bool
  playAlive : Bool
  deriving Repr, DecidableEq

/-- The pipeline right after `p.start()` on all five processes with the
event unset. -/
def pipeInit : PipeState :=
  { stopFlag := false, captureAlive := true, sttAlive := true,
    translateAlive := true, preprocesAlive := true, playAlive := true }

/-- The fatal handler of `capture_process` (realtime.py lines 220-224): a
device/initialization failure is logged, **`stop_event.set()` is called**,
and the capture process exits. -/
def captureDeviceFailure (s : PipeState) : PipeState :=
  { s with captureAlive := false, stopFlag := true }

/-- A failure of `pygame.mixer.init` in `play_process` (realtime.py line
405): the exception is uncaught, so the play process dies; no other field is
touched and the stop event is not set. -/
def playDeviceFailure (s : PipeState) : PipeState :=
  { s with playAlive := false }

/-- The loop guard shared by the consumer stages (realtime.py lines 241,
288, 347, 407): `while not stop_event.is_set() or not q.empty()`. -/
def stageContinues (stopFlagSet : Bool) (queueEmpty : Bool) : Bool :=
  !stopFlagSet || !queueEmpty

/-! ### The blocking calls of the realtime.py stage workers -/

inductive CallKind
  | chGet
  | chPut
  | micListen
  deriving Repr, DecidableEq

/-- One potentially blocking primitive call made by a stage worker of
realtime.py, with its timeout argument in seconds (`none` = the call can
block without bound). -/
structure BlockingCall where
  stage : String
  callee : String
  kind : CallKind
  timeoutSecs : Option Nat
  deriving Repr, DecidableEq

/-- Registry of every channel `get`/`put` and microphone listen performed by
the five stage workers of realtime.py:
`recognizer.listen(source, timeout=5, ...)` line 211;
`audio_queue.put(wav_bytes)` line 213;
`audio_queue.get(timeout=1)` line 243; `stt_queue.put(text)` line 266;
`stt_queue.get(timeout=1)` line 290; `translated_queue.put(text)` line 307;
`translated_queue.get(timeout=1)` line 349;
`output_queue.put(wav_bytes)` line 390;
`output_queue.get(timeout=1)` line 409. -/
def realtimeBlockingCalls : List BlockingCall :=
  [⟨"capture", "recognizer.listen", CallKind.micListen, some 5⟩,
   ⟨"capture", "audio_queue.put", CallKind.chPut, none⟩,
   ⟨"stt", "audio_queue.get", CallKind.chGet, some 1⟩,
   ⟨"stt", "stt_queue.put", CallKind.chPut, none⟩,
   ⟨"translate", "stt_queue.get", CallKind.chGet, some 1⟩,
   ⟨"translate", "translated_queue.put", CallKind.chPut, none⟩,
   ⟨"preproces_output", "translated_queue.get", CallKind.chGet, some 1⟩,
   ⟨"preproces_output", "output_queue.put", CallKind.chPut, none⟩,
   ⟨"play", "output_queue.get", CallKind.chGet, some 1⟩]

/-! ### Helper lemmas -/

/-- If the interrupt flag first reads true at iteration `i + k`, no `done`
chunk occurs among the next `k` lines and at least `k` lines remain, the
streaming loop consumes exactly those `k` lines and keeps their tokens. -/
theorem chatGo_take :
    ∀ (k : Nat) (lines : List StreamLine) (intr stopf : Nat → Bool) (i : Nat)
      (acc : List String),
      (∀ j, j < k → intr (i + j) = false ∧ stopf (i + j) = false) →
      intr (i + k) = true →
      k ≤ lines.length →
      (∀ l ∈ lines.take k, lineNotDone l = true) →
      chatGo lines intr stopf i acc = acc ++ collectTokens (lines.take k)
  | 0, lines, intr, stopf, i, acc, _, ha, _, _ => by
    have hi : intr i = true := by simpa using ha
    cases lines with
    | nil => simp [chatGo, collectTokens]
    | cons l rest => simp [chatGo, hi, collectTokens]
  | k + 1, lines, intr, stopf, i, acc, hb, ha, hk, hd => by
    cases lines with
    | nil => simp at hk
    | cons l rest =>
      have h0 := hb 0 (Nat.succ_pos k)
      have hi : intr i = false := by simpa using h0.1
      have hs : stopf i = false := by simpa using h0.2
      have hb' : ∀ j, j < k → intr (i + 1 + j) = false ∧ stopf (i + 1 + j) = false := by
        intro j hj
        have h1 := hb (j + 1) (by omega)
        have e : i + (j + 1) = i + 1 + j := by omega
        rw [e] at h1
        exact h1
      have ha' : intr (i + 1 + k) = true := by
        have e : i + (k + 1) = i + 1 + k := by omega
        rw [e] at ha
        exact ha
      have hk' : k ≤ rest.length := by simp at hk; omega
      have hd' : ∀ x ∈ rest.take k, lineNotDone x = true := by
        intro x hx
        exact hd x (by simp [List.take_succ_cons, hx])
      cases l with
      | none =>
        rw [show chatGo (none :: rest) intr stopf i acc = chatGo rest intr stopf (i + 1) acc
              from by simp [chatGo, hi, hs]]
        rw [chatGo_take k rest intr stopf (i + 1) acc hb' ha' hk' hd']
        simp [List.take_succ_cons, collectTokens]
      | some c =>
        have hdc : c.done = false := by
          have hmem := hd (some c) (by simp [List.take_succ_cons])
          simpa [lineNotDone] using hmem
        by_cases ht : c.token = ""
        · rw [show chatGo (some c :: rest) intr stopf i acc
                = chatGo rest intr stopf (i + 1) acc
                from by simp [chatGo, hi, hs, hdc, ht]]
          rw [chatGo_take k rest intr stopf (i + 1) acc hb' ha' hk' hd']
          simp [List.take_succ_cons, collectTokens, ht]
        · rw [show chatGo (some c :: rest) intr stopf i acc
                = chatGo rest intr stopf (i + 1) (acc ++ [c.token])
                from by simp [chatGo, hi, hs, hdc, ht]]
          rw [chatGo_take k rest intr stopf (i + 1) (acc ++ [c.token]) hb' ha' hk' hd']
          simp [List.take_succ_cons, collectTokens, ht]

/-- When the acquired utterance is non-empty, the turn reduces to the
post-transcription steps. -/
theorem convTurn_some (s0 : SState) (msgs : List Msg) (o : TurnOracles) (wav : Bytes)
    (hacq : (acquireUtterance s0 o.freshListen).1 = some wav) (hw : wav.isEmpty = false) :
    convTurn s0 msgs o =
      convTurnAfterText (acquireUtterance s0 o.freshListen).2 msgs o (o.transcribe wav) := by
  unfold convTurn
  rw [hacq]
  simp [convTurnWith, hw]

/-- An empty-LLM-response turn: the user turn is appended and kept, nothing
else happens. -/
theorem convTurnAfterText_emptyLLM (s : SState) (msgs : List Msg) (o : TurnOracles)
    (text : String) (hne : text ≠ "") (hex : isExitPhrase text = false)
    (hr : llmResponse o = "") :
    convTurnAfterText s msgs o text = ⟨s, msgs ++ [⟨"user", text⟩], false, true, false⟩ := by
  simp [convTurnAfterText, hne, hex, hr]

/-- A non-empty-LLM-response turn appends the user turn and the assistant
turn. -/
theorem convTurnAfterText_answered (s : SState) (msgs : List Msg) (o : TurnOracles)
    (text : String) (hne : text ≠ "") (hex : isExitPhrase text = false)
    (hr : llmResponse o ≠ "") :
    (convTurnAfterText s msgs o text).messages
      = msgs ++ [⟨"user", text⟩, ⟨"assistant", llmResponse o⟩] := by
  by_cases hibl : o.interruptedAfterLLM <;> simp [convTurnAfterText, hne, hex, hr, hibl]

/-! ### Claims -/

/-- C1: whenever the state lock is not held, the stashed interrupt utterance
is non-null only if the interrupted flag is true (the invariant holds
initially and is preserved by every atomic critical section / unlocked write
of voice-llm.py), and the orchestrator's consuming critical section clears
`interrupt_audio` and `interrupted` together within one lock acquisition. -/
theorem C1_shared_interrupt_invariant :
    AudioImpliesInterrupted initState ∧
    (∀ s t : SState, AudioImpliesInterrupted s → LockStep s t → AudioImpliesInterrupted t) ∧
    (∀ s : SState, truthyBytes s.interrupt_audio = true →
      (orchConsume s).2.interrupt_audio = none ∧ (orchConsume s).2.interrupted = false) := by
  refine ⟨by decide, ?_, ?_⟩
  · intro s t hs hst
    cases hst with
    | playStart => exact hs
    | playEnd => exact hs
    | setStop => exact hs
    | stash wav =>
      unfold AudioImpliesInterrupted listenerStash
      by_cases h : s.is_playing
      · simp [h]
      · simp [h]
        exact hs
    | consume =>
      unfold AudioImpliesInterrupted orchConsume
      by_cases h : truthyBytes s.interrupt_audio
      · simp [h]
      · simp [h]
        exact hs
  · intro s h
    unfold orchConsume
    simp [h]

theorem C1_shared_interrupt_invariant_witness :
    AudioImpliesInterrupted (listenerStash [1, 2] ⟨true, false, none, false⟩) :=
  C1_shared_interrupt_invariant.2.1 ⟨true, false, none, false⟩
    (listenerStash [1, 2] ⟨true, false, none, false⟩) (by decide)
    (LockStep.stash ⟨true, false, none, false⟩ [1, 2])

/-- C2 counterexample: with playback already ended (`is_playing = false`),
the listener's critical section drops the captured utterance `[7]` entirely
(the state is left unchanged and nothing is stashed), so the next turn's
input is whatever a fresh `listen_once` yields (`[9]`), not the captured
utterance — refuting "the utterance is not lost — it is treated as the next
normal conversation turn". -/
theorem C2_race_counterexample :
    listenerStash [7] ⟨false, false, none, false⟩ = ⟨false, false, none, false⟩ ∧
    (acquireUtterance (listenerStash [7] ⟨false, false, none, false⟩) (some [9])).1
      = some [9] ∧
    some [9] ≠ (some [7] : Option Bytes) := by decide

/-- C2 (amended): if playback has already ended when the listener re-acquires
the lock, the shared state is left unchanged — the interrupted flag keeps its
value (false stays false) and nothing is attributed as a barge-in — but the
captured utterance is discarded outright: the next turn is acquired exactly
as if the utterance had never been captured, from a fresh listen. -/
theorem C2_race_amended (s : SState) (wav : Bytes) (h : s.is_playing = false) :
    listenerStash wav s = s ∧
    (listenerStash wav s).interrupted = s.interrupted ∧
    ∀ fresh, acquireUtterance (listenerStash wav s) fresh = acquireUtterance s fresh := by
  have he : listenerStash wav s = s := by
    unfold listenerStash
    simp [h]
  exact ⟨he, by rw [he], fun fresh => by rw [he]⟩

theorem C2_race_amended_witness :
    listenerStash [7] ⟨false, false, none, false⟩ = ⟨false, false, none, false⟩ :=
  (C2_race_amended ⟨false, false, none, false⟩ [7] rfl).1

/-- C3: the streaming loop re-reads the interrupt flag before consuming each
stream line; if the flag first reads true at iteration `k`, exactly the
tokens of the first `k` lines are kept (nothing already received is
discarded) and the returned partial response is their stripped join; and any
non-empty response — partial or complete — is appended to the history as an
assistant turn by the orchestrator. -/
theorem C3_streaming_interrupt_keeps_partial :
    (∀ (lines : List StreamLine) (intr stopf : Nat → Bool) (k : Nat),
      (∀ j, j < k → intr j = false ∧ stopf j = false) →
      intr k = true →
      k ≤ lines.length →
      (∀ l ∈ lines.take k, lineNotDone l = true) →
      chatOllama false lines intr stopf
        = pyStrip (String.join (collectTokens (lines.take k)))) ∧
    (∀ (s0 : SState) (msgs : List Msg) (o : TurnOracles) (wav : Bytes) (text : String),
      (acquireUtterance s0 o.freshListen).1 = some wav →
      wav.isEmpty = false →
      o.transcribe wav = text →
      text ≠ "" →
      isExitPhrase text = false →
      llmResponse o ≠ "" →
      (convTurn s0 msgs o).messages
        = msgs ++ [⟨"user", text⟩, ⟨"assistant", llmResponse o⟩]) := by
  constructor
  · intro lines intr stopf k hb ha hk hd
    have he : chatOllama false lines intr stopf
        = pyStrip (String.join (chatGo lines intr stopf 0 [])) := rfl
    rw [he, chatGo_take k lines intr stopf 0 [] (by simpa using hb) (by simpa using ha) hk hd]
    simp
  · intro s0 msgs o wav text hacq hw htx hne hex hr
    rw [convTurn_some s0 msgs o wav hacq hw, htx]
    exact convTurnAfterText_answered _ msgs o text hne hex hr

theorem C3_streaming_interrupt_keeps_partial_witness :
    chatOllama false [some ⟨"Hola", false⟩, some ⟨" mundo", false⟩, some ⟨"XX", false⟩]
        (fun i => i == 2) (fun _ => false) = "Hola mundo" ∧
    (convTurn ⟨false, false, none, false⟩ []
        ⟨some [5], fun _ => "hola", false, [some ⟨"ok", false⟩], fun _ => false,
          fun _ => false, false⟩).messages
      = [⟨"user", "hola"⟩, ⟨"assistant", "ok"⟩] := by
  constructor
  · have h := C3_streaming_interrupt_keeps_partial.1
      [some ⟨"Hola", false⟩, some ⟨" mundo", false⟩, some ⟨"XX", false⟩]
      (fun i => i == 2) (fun _ => false) 2
      (by intro j hj; interval_cases j <;> exact ⟨rfl, rfl⟩)
      rfl (by decide) (by decide)
    rw [h]
    decide
  · have hresp : llmResponse ⟨some [5], fun _ => "hola", false, [some ⟨"ok", false⟩],
        fun _ => false, fun _ => false, false⟩ = "ok" := by decide
    have h := C3_streaming_interrupt_keeps_partial.2 ⟨false, false, none, false⟩ []
      ⟨some [5], fun _ => "hola", false, [some ⟨"ok", false⟩], fun _ => false,
        fun _ => false, false⟩
      [5] "hola" rfl rfl rfl (by decide) (by decide) (by rw [hresp]; decide)
    rw [hresp] at h
    simpa using h

/-- C6: when the translation collaborator raises on an item, the translate
stage still emits the original text unmodified (the item is not dropped);
when the LLM backend is unreachable `chat_ollama` returns the empty string,
and the orchestrator then merely skips the rest of the turn — the loop is
not exited and the stop flag is untouched. -/
theorem C6_network_error_fallbacks :
    (∀ (inL outL : String) (tr : String → Except Unit String) (text : String),
      inL ≠ outL → tr text = Except.error () →
      translateItem inL outL tr text = (text, true)) ∧
    (∀ o : TurnOracles, o.llmNetErr = true → llmResponse o = "") ∧
    (∀ (s0 : SState) (msgs : List Msg) (o : TurnOracles) (wav : Bytes) (text : String),
      (acquireUtterance s0 o.freshListen).1 = some wav →
      wav.isEmpty = false →
      o.transcribe wav = text →
      text ≠ "" →
      isExitPhrase text = false →
      llmResponse o = "" →
      (convTurn s0 msgs o).exited = false ∧
      (convTurn s0 msgs o).state.stop = (acquireUtterance s0 o.freshListen).2.stop ∧
      (convTurn s0 msgs o).spoke = false) := by
  refine ⟨?_, ?_, ?_⟩
  · intro inL outL tr text hne htr
    unfold translateItem
    rw [if_pos hne, htr]
  · intro o ho
    unfold llmResponse chatOllama
    rw [ho]
    rfl
  · intro s0 msgs o wav text hacq hw htx hne hex hr
    rw [convTurn_some s0 msgs o wav hacq hw, htx,
      convTurnAfterText_emptyLLM _ msgs o text hne hex hr]
    exact ⟨rfl, rfl, rfl⟩

theorem C6_network_error_fallbacks_witness :
    translateItem "es" "en" (fun _ => Except.error ()) "hola" = ("hola", true) :=
  C6_network_error_fallbacks.1 "es" "en" (fun _ => Except.error ()) "hola" (by decide) rfl

/-- C8: an audio chunk whose (stripped) transcription is empty is dropped by
the STT stage — nothing is forwarded to the translate stage — and in the
assistant loop an empty transcript makes the orchestrator continue to the
next turn without touching the history and without calling the LLM. -/
theorem C8_empty_transcript_discarded :
    sttHandle (Except.ok "") = none ∧
    (∀ (s0 : SState) (msgs : List Msg) (o : TurnOracles) (wav : Bytes),
      (acquireUtterance s0 o.freshListen).1 = some wav →
      wav.isEmpty = false →
      o.transcribe wav = "" →
      (convTurn s0 msgs o).messages = msgs ∧
      (convTurn s0 msgs o).llmCalled = false ∧
      (convTurn s0 msgs o).exited = false) := by
  refine ⟨rfl, ?_⟩
  intro s0 msgs o wav hacq hw htx
  rw [convTurn_some s0 msgs o wav hacq hw, htx]
  exact ⟨rfl, rfl, rfl⟩

theorem C8_empty_transcript_discarded_witness :
    (convTurn ⟨false, false, none, false⟩ []
      ⟨some [5], fun _ => "", false, [], fun _ => false, fun _ => false, false⟩).messages
      = [] :=
  (C8_empty_transcript_discarded.2 ⟨false, false, none, false⟩ []
    ⟨some [5], fun _ => "", false, [], fun _ => false, fun _ => false, false⟩ [5]
    rfl rfl rfl).1

/-- C9: when the LLM call yields an empty response (connection error, or the
stream interrupted/ended before any token), the orchestrator appends no
assistant turn and does not speak, but the user turn appended before the
call stays: the history ends with an unanswered user turn. -/
theorem C9_empty_response_keeps_user_turn (s0 : SState) (msgs : List Msg) (o : TurnOracles)
    (wav : Bytes) (text : String)
    (hacq : (acquireUtterance s0 o.freshListen).1 = some wav)
    (hw : wav.isEmpty = false) (htx : o.transcribe wav = text) (hne : text ≠ "")
    (hex : isExitPhrase text = false) (hr : llmResponse o = "") :
    (convTurn s0 msgs o).messages = msgs ++ [⟨"user", text⟩] ∧
    (convTurn s0 msgs o).messages.getLast? = some ⟨"user", text⟩ ∧
    (convTurn s0 msgs o).spoke = false ∧
    (convTurn s0 msgs o).llmCalled = true ∧
    (convTurn s0 msgs o).exited = false := by
  rw [convTurn_some s0 msgs o wav hacq hw, htx,
    convTurnAfterText_emptyLLM _ msgs o text hne hex hr]
  refine ⟨rfl, ?_, rfl, rfl, rfl⟩
  simp

theorem C9_empty_response_keeps_user_turn_witness :
    (convTurn ⟨false, false, none, false⟩ []
      ⟨some [5], fun _ => "hola", true, [], fun _ => false, fun _ => false, false⟩).messages
      = [⟨"user", "hola"⟩] := by
  have h := (C9_empty_response_keeps_user_turn ⟨false, false, none, false⟩ []
    ⟨some [5], fun _ => "hola", true, [], fun _ => false, fun _ => false, false⟩ [5] "hola"
    rfl rfl rfl (by decide) (by decide) rfl).1
  simpa using h

/-- C4 counterexample: `stt_queue.put(text)` (realtime.py line 266) is a
stage-worker channel put with no timeout, so it is not true that every
blocking call of the stage workers — in particular every channel put — is a
bounded wait. -/
theorem C4_unbounded_put_counterexample :
    (⟨"stt", "stt_queue.put", CallKind.chPut, none⟩ : BlockingCall)
        ∈ realtimeBlockingCalls ∧
    ¬ ∀ c ∈ realtimeBlockingCalls, c.timeoutSecs.isSome = true := by decide

/-- C4 (amended): every channel get of the stage workers carries a timeout
(1 s) and the microphone listen carries one (5 s), so the consuming side of
each stage is a bounded wait; but every channel put of the stage workers
carries no timeout and can block without bound when the downstream queue is
full. -/
theorem C4_get_timeouts_amended :
    ∀ c ∈ realtimeBlockingCalls,
      (c.kind ≠ CallKind.chPut → c.timeoutSecs.isSome = true) ∧
      (c.kind = CallKind.chPut → c.timeoutSecs = none) := by decide

theorem C4_get_timeouts_amended_witness :
    (⟨"stt", "audio_queue.get", CallKind.chGet, some 1⟩ : BlockingCall).timeoutSecs.isSome
      = true :=
  (C4_get_timeouts_amended ⟨"stt", "audio_queue.get", CallKind.chGet, some 1⟩
    (by decide)).1 (by decide)

/-- C5: when the source language equals the target language, the translate
stage of realtime.py and the flow-1 translation step of test-times.py output
the item's text unchanged and never invoke the translation collaborator. -/
theorem C5_translate_passthrough :
    (∀ (lang : String) (tr : String → Except Unit String) (text : String),
      translateItem lang lang tr text = (text, false)) ∧
    (∀ (lang : String) (tr : String → String) (text : String),
      flowOneTranslate lang lang tr text = (text, false)) := by
  constructor
  · intro lang tr text
    unfold translateItem
    rw [if_neg (by simp)]
  · intro lang tr text
    unfold flowOneTranslate
    rw [if_neg (by simp)]

/-- C7 counterexample: a device-initialization failure in the capture stage
is not fatal only to that stage — its handler calls `stop_event.set()`
(realtime.py line 222), so the global stop flag becomes true and every
drained consumer stage's loop guard goes false: the single failure stops the
whole pipeline, refuting the claim. -/
theorem C7_failure_scope_counterexample :
    pipeInit.stopFlag = false ∧
    (captureDeviceFailure pipeInit).stopFlag = true ∧
    stageContinues (captureDeviceFailure pipeInit).stopFlag true = false := by decide

/-- C7 (amended): per-item failures are caught inside their stage (a failed
transcription or synthesis drops the item, a failed translation forwards the
original) and never stop a stage; a speaker-initialization failure kills
only the play stage and leaves the stop flag and all other stages untouched;
but a microphone-initialization failure in capture sets the global stop
event, shutting the whole pipeline down once the queues drain. -/
theorem C7_failure_scope_amended :
    (∀ s : PipeState,
      (playDeviceFailure s).playAlive = false ∧
      (playDeviceFailure s).stopFlag = s.stopFlag ∧
      (playDeviceFailure s).captureAlive = s.captureAlive ∧
      (playDeviceFailure s).sttAlive = s.sttAlive ∧
      (playDeviceFailure s).translateAlive = s.translateAlive ∧
      (playDeviceFailure s).preprocesAlive = s.preprocesAlive) ∧
    (∀ s : PipeState,
      (captureDeviceFailure s).stopFlag = true ∧
      (captureDeviceFailure s).captureAlive = false) ∧
    sttHandle (Except.error ()) = none ∧
    (∀ sp : Bytes → Except Unit Bytes, preprocesItem (Except.error ()) sp = none) ∧
    (∀ text : String, (translateItem "es" "en" (fun _ => Except.error ()) text).1 = text) ∧
    stageContinues true true = false := by
  refine ⟨fun s => ⟨rfl, rfl, rfl, rfl, rfl, rfl⟩, fun s => ⟨rfl, rfl⟩, rfl,
    fun sp => rfl, ?_, rfl⟩
  intro text
  unfold translateItem
  rw [if_pos (by decide)]

/-- C10: when the configured TTS provider is "piper" but the piper package
is not importable, the synthesis stage substitutes "gtts" for the whole run
instead of failing or exiting (the setup prologue returns normally with the
effective provider "gtts" and no piper voice), and every subsequent item is
dispatched to gTTS. -/
theorem C10_piper_import_fallback :
    preprocesInit "piper" false = ("gtts", false) ∧
    (∀ items : List String,
      items.map (fun _ =>
          itemSynthProvider (preprocesInit "piper" false).1 (preprocesInit "piper" false).2)
        = items.map fun _ => "gtts") := by
  exact ⟨by decide, fun items => rfl⟩

end SttTts
